import Mathlib

/-!
Shallow embedding of the PADME enforcer (package `enforcer`, file
`enforcer/enforcer.go`) together with the pieces of the `policy` package
that the enforcer consumes.  Go pointers are modelled as `Option`, Go
errors as `Option String` (`none` = nil error), byte slices as `List Nat`,
and side effects on plugins and event handlers as explicit call traces
returned by each operation.  The policy repository is an external
collaborator (`store.PolicyRepository`): it is modelled as a record of the
outcome of `Get` and the outcome of `Save` per bundle.
-/

namespace Padme

/-- Boolean operator of a `RuleSet` node (`policy.NONE`, `policy.AND`,
`policy.OR`). -/
inductive Operator where
  | NONE
  | AND
  | OR
deriving DecidableEq, Repr

/-- Leaf predicate over a request property.  Modelled from the spec: the
`policy` package source is not under src/; a `Rule` is "a named property
(e.g., protocol, destination, URI) and a comparison value". -/
structure Rule where
  Name : String
  Value : String
deriving DecidableEq, Repr

/-- Boolean expression tree of rules.  Modelled from the spec: the
`policy` package source is not under src/; a `RuleSet` is "an operator
(`NONE` - identity/leaf wrapper, `AND`, `OR`) plus either a single `Rule`
or nested `RuleSet` operands".  The Go struct fields `OOperator` and
`RRule` are kept; the two operand slots are the nested rule sets. -/
inductive RuleSet where
  | mk (OOperator : Operator) (RRule : Option Rule) (LArg RArg : Option RuleSet)

/-- Combinator composing two rule sets under `AND`.  Modelled from the
spec: "RuleSets compose via an `And`/`Or` combinator that returns a new
RuleSet wrapping both operands - composition is purely structural". -/
def RuleSet.And (a b : RuleSet) : RuleSet :=
  RuleSet.mk Operator.AND none (some a) (some b)

/-- Name/value identity assertion presented with a request
(`policy.Credential`). -/
structure Credential where
  Name : String
  Value : String
deriving DecidableEq, Repr

/-- Assembled request (`policy.Resource`): the AND-composition of the
request properties plus the credential that identifies the caller.  The
credential is a Go pointer, hence `Option`. -/
structure Resource where
  Name : RuleSet
  IdentifiedBy : Option Credential

/-- Plugin-addressed configuration payload (`policy.PolicyContent`): a
target `PluginID` and an opaque `Blob`. -/
structure PolicyContent where
  PluginID : String
  Blob : List Nat
deriving DecidableEq, Repr

/-- One policy of a bundle.  Modelled from the spec: the `policy` package
source is not under src/.  Only the fields the enforcer reads are kept
(`UUID`, `Description`, `CContents`); the match criteria, validity window
and target scope are consumed solely by the abstract `Match` oracle
below.  `CContents` is a nil-able Go slice, hence `Option`. -/
structure Policy where
  UUID : String
  Description : String
  CContents : Option (List PolicyContent)
deriving DecidableEq, Repr

/-- Versioned, ordered collection of policies (`policy.PolicyBundle`). -/
structure PolicyBundle where
  Description : String
  PolicyVersion : Nat
  Policies : List Policy
deriving DecidableEq, Repr

/-- Order-preserving policy selection.  Modelled from the spec: the
`policy` package source is not under src/; `Filter(predicate)` "returns,
preserving bundle order, every policy satisfying the predicate". -/
def PolicyBundle.Filter (b : PolicyBundle) (pred : Policy → Bool) : List Policy :=
  b.Policies.filter pred

/-- Matching oracle standing for `policy.PolicyBundle.Match`.  Modelled
from the spec: the matching algorithm's source is not under src/; its
contract is `Match(resource, target, asOf time, location) -> (valid,
accept, allow)`.  The enforcer always passes `nil` for the target and the
location, so those arguments are elided; the clock reading is a `Nat`.
Every theorem about `Answer` quantifies over all such oracles. -/
def MatchOracle : Type :=
  PolicyBundle → Resource → Nat → Bool × Bool × Bool

/-- External enforcement backend (`enforcer.Plugin`).  The enforcer only
ever reads its id and issues `Apply`/`Remove` calls to it; the calls are
recorded as a trace, so the capability reduces to the id. -/
structure Plugin where
  id : String
deriving DecidableEq, Repr

/-- Go method `Plugin.ID()`. -/
def Plugin.ID (p : Plugin) : String :=
  p.id

/-- Internal wrapper `loadedPlugin`: a registered plugin plus its
`enabled` flag. -/
structure loadedPlugin where
  plugin : Plugin
  enabled : Bool
deriving DecidableEq, Repr

/-- Policy event kinds.  Modelled from the spec: the declaration file is
not under src/; the kinds are `PolicyApply` and `PolicyApplyError`. -/
inductive PolicyEvent where
  | PolicyApply
  | PolicyApplyError
deriving DecidableEq, Repr

/-- One `Handle(event, policyVersion, policyDescription, details)`
invocation received by a registered handler, tagged with the handler's
registration id. -/
structure HandlerCall where
  handlerID : String
  event : PolicyEvent
  policyVersion : Nat
  policyDescription : String
  details : String
deriving DecidableEq, Repr

/-- One `Apply` or `Remove` invocation received by a plugin. -/
inductive PluginCall where
  | apply (uuid : String) (blob : List Nat)
  | remove (uuid : String)
deriving DecidableEq, Repr

/-- Policy repository collaborator (`store.PolicyRepository`), an
external interface: `Get() (*PolicyBundle, error)` is modelled by the
pair it returns and `Save(*PolicyBundle) error` by the error it returns
for each bundle. -/
structure PolicyRepository where
  get : Option PolicyBundle × Option String
  save : PolicyBundle → Option String

/-- Enforcer state: the repository, the handler registry and the plugin
registry.  Go maps keyed by strings are modelled as association lists;
handlers carry no behaviour beyond receiving events, so the handler
registry keeps only the registration ids. -/
structure Enforcer where
  Store : PolicyRepository
  Handlers : List String
  RegisteredPlugins : List (String × loadedPlugin)

/-- `Enforcer.Fetch`: delegates to the repository's `Get`; on a non-nil
error it logs and returns nil, otherwise it returns the bundle pointer
unchanged. -/
def Enforcer.Fetch (e : Enforcer) : Option PolicyBundle :=
  match e.Store.get with
  | (_, some _) => none
  | (b, none) => b

/-- `assemble`: builds a `Resource` from the request properties and
credential.  Fails when the property list is empty; otherwise wraps the
first property in a `NONE` node and left-folds `And` over the rest. -/
def assemble (properties : List Rule) (credential : Option Credential) :
    Except String Resource :=
  match properties with
  | [] => Except.error "at least one property must be defined"
  | p :: rest =>
    let ruleset := rest.foldl
      (fun rs rule => rs.And (RuleSet.mk Operator.NONE (some rule) none none))
      (RuleSet.mk Operator.NONE (some p) none none)
    Except.ok { IdentifiedBy := credential, Name := ruleset }

/-- `Enforcer.Answer`: fetches the bundle (fail closed on nil), assembles
the resource (fail closed on error), then returns
`valid && (!accept || allow)` from the match triple at the current
time. -/
def Enforcer.Answer (e : Enforcer) (matchO : MatchOracle) (now : Nat)
    (properties : List Rule) (credential : Option Credential) : Bool :=
  match e.Fetch with
  | none => false
  | some bundle =>
    match assemble properties credential with
    | Except.error _ => false
    | Except.ok resource =>
      match matchO bundle resource now with
      | (valid, accept, allow) => valid && (!accept || allow)

/-- `Enforcer.notify`: invokes `Handle` on every registered handler with
the event kind, the bundle's version and description, and the details
text.  Returns the list of handler invocations made. -/
def Enforcer.notify (e : Enforcer) (event : PolicyEvent) (details : String)
    (bundle : PolicyBundle) : List HandlerCall :=
  e.Handlers.map (fun id =>
    { handlerID := id
      event := event
      policyVersion := bundle.PolicyVersion
      policyDescription := bundle.Description
      details := details })

/-- `Enforcer.Apply`: logs `bundle.Description` (dereferencing the bundle
pointer - a nil bundle panics, modelled as `none`), saves the bundle,
notifies every handler with `PolicyApply`/"policy applied" on success or
`PolicyApplyError`/the error text on failure, and returns whether the
save succeeded, paired with the handler invocations made. -/
def Enforcer.Apply (e : Enforcer) (bundle : Option PolicyBundle) :
    Option (Bool × List HandlerCall) :=
  match bundle with
  | none => none
  | some b =>
    match e.Store.save b with
    | some msg => some (false, e.notify PolicyEvent.PolicyApplyError msg b)
    | none => some (true, e.notify PolicyEvent.PolicyApply "policy applied" b)

/-- Handler invocations produced by a sequence of `Apply` calls, one per
bundle, concatenated in call order.  A nil bundle contributes nothing
(the Go code would panic there; see `Enforcer.Apply`). -/
def Enforcer.applySeq (e : Enforcer) : List PolicyBundle → List HandlerCall
  | [] => []
  | b :: rest =>
    (match e.Apply (some b) with
     | some (_, trace) => trace
     | none => []) ++ e.applySeq rest

/-- The single invocation a handler registered under `h` receives from
one `Apply` of bundle `b` on enforcer `e`: a `PolicyApply` event with
details "policy applied" when the save succeeds, otherwise a
`PolicyApplyError` event carrying the error text. -/
def expectedHandlerCall (e : Enforcer) (h : String) (b : PolicyBundle) :
    HandlerCall :=
  match e.Store.save b with
  | some msg =>
    ⟨h, PolicyEvent.PolicyApplyError, b.PolicyVersion, b.Description, msg⟩
  | none =>
    ⟨h, PolicyEvent.PolicyApply, b.PolicyVersion, b.Description, "policy applied"⟩

/-- `pluginFilter`: predicate selecting the policies that carry at least
one `PolicyContent` addressed to the given plugin.  A nil `CContents`
never matches. -/
def pluginFilter (plugin : Plugin) (p : Policy) : Bool :=
  match p.CContents with
  | some contents => contents.any (fun content => content.PluginID == plugin.ID)
  | none => false

/-- The `plugin.Apply(p.UUID, content.Blob)` calls issued by the `Enable`
loop: for each policy selected by `pluginFilter`, one call per
`PolicyContent` whose `PluginID` equals the plugin's id, in bundle
order. -/
def applyCallsFor (plugin : Plugin) (bundle : PolicyBundle) : List PluginCall :=
  (bundle.Filter (pluginFilter plugin)).flatMap (fun p =>
    (p.CContents.getD []).filterMap (fun content =>
      if content.PluginID == plugin.ID
      then some (PluginCall.apply p.UUID content.Blob)
      else none))

/-- The `plugin.Remove(p.UUID)` calls issued by the `Disable` loop: for
each policy selected by `pluginFilter`, one call per `PolicyContent`
whose `PluginID` equals the plugin's id, in bundle order. -/
def removeCallsFor (plugin : Plugin) (bundle : PolicyBundle) : List PluginCall :=
  (bundle.Filter (pluginFilter plugin)).flatMap (fun p =>
    (p.CContents.getD []).filterMap (fun content =>
      if content.PluginID == plugin.ID
      then some (PluginCall.remove p.UUID)
      else none))

/-- Result of a plugin lifecycle operation: the updated enforcer, the
boolean return value, and the trace of plugin calls made. -/
structure LifecycleResult where
  enforcer : Enforcer
  ok : Bool
  calls : List PluginCall

/-- Sets the `enabled` flag of the registry entry with the given id (Go
mutates the `loadedPlugin` through the map's pointer). -/
def Enforcer.setEnabled (e : Enforcer) (pluginID : String) (v : Bool) : Enforcer :=
  { e with RegisteredPlugins := e.RegisteredPlugins.map (fun kv =>
      if kv.1 == pluginID then (kv.1, { kv.2 with enabled := v }) else kv) }

/-- `Enforcer.Enable`: fails when the id is not registered, when the
plugin is already enabled, or when the bundle fetch fails; otherwise
issues the `Apply` calls of `applyCallsFor` and sets `enabled`. -/
def Enforcer.Enable (e : Enforcer) (pluginID : String) : LifecycleResult :=
  match e.RegisteredPlugins.lookup pluginID with
  | none => ⟨e, false, []⟩
  | some lp =>
    if lp.enabled then ⟨e, false, []⟩
    else
      match e.Fetch with
      | none => ⟨e, false, []⟩
      | some bundle =>
        ⟨e.setEnabled pluginID true, true, applyCallsFor lp.plugin bundle⟩

/-- `Enforcer.Disable`: fails when the id is not registered, when the
plugin is already disabled, or when the bundle fetch fails; otherwise
issues the `Remove` calls of `removeCallsFor` and clears `enabled`. -/
def Enforcer.Disable (e : Enforcer) (pluginID : String) : LifecycleResult :=
  match e.RegisteredPlugins.lookup pluginID with
  | none => ⟨e, false, []⟩
  | some lp =>
    if !lp.enabled then ⟨e, false, []⟩
    else
      match e.Fetch with
      | none => ⟨e, false, []⟩
      | some bundle =>
        ⟨e.setEnabled pluginID false, true, removeCallsFor lp.plugin bundle⟩

/-- `Enforcer.RegisterPlugin`: fails when the id is already registered;
otherwise inserts `loadedPlugin{plugin, false}`, calls `Enable(id)`
discarding its return value, and returns true. -/
def Enforcer.RegisterPlugin (e : Enforcer) (plugin : Plugin) : LifecycleResult :=
  match e.RegisteredPlugins.lookup plugin.ID with
  | some _ => ⟨e, false, []⟩
  | none =>
    let e1 : Enforcer :=
      { e with RegisteredPlugins := e.RegisteredPlugins ++ [(plugin.ID, ⟨plugin, false⟩)] }
    let r := e1.Enable plugin.ID
    ⟨r.enforcer, true, r.calls⟩

/-- `Enforcer.UnregisterPlugin`: calls `Disable(id)` first (its failure
is only logged), then checks presence, deletes the registry entry and
returns whether the plugin was present. -/
def Enforcer.UnregisterPlugin (e : Enforcer) (plugin : Plugin) : LifecycleResult :=
  let r := e.Disable plugin.ID
  let present := (r.enforcer.RegisteredPlugins.lookup plugin.ID).isSome
  ⟨{ r.enforcer with RegisteredPlugins :=
      r.enforcer.RegisteredPlugins.filter (fun kv => !(kv.1 == plugin.ID)) },
    present, r.calls⟩

/-- The registry insertion performed by `RegisterPlugin` before it calls
`Enable` (named here so the lemmas below can speak about the
intermediate state). -/
def Enforcer.insertPlugin (e : Enforcer) (p : Plugin) : Enforcer :=
  { e with RegisteredPlugins := e.RegisteredPlugins ++ [(p.ID, ⟨p, false⟩)] }

/-! Concrete fixtures used by witnesses and counterexamples. -/

/-- A sample rule. -/
def Rule0 : Rule := ⟨"dest_port", "443"⟩

/-- The resource `assemble` builds from the single property `Rule0` and a
nil credential. -/
def Res0 : Resource :=
  ⟨RuleSet.mk Operator.NONE (some Rule0) none none, none⟩

/-- An empty sample bundle. -/
def B0 : PolicyBundle := ⟨"b0", 1, []⟩

/-- A repository that returns `B0` and saves successfully. -/
def Repo0 : PolicyRepository := ⟨(some B0, none), fun _ => none⟩

/-- An enforcer over `Repo0` with no handlers and no plugins. -/
def E0 : Enforcer := ⟨Repo0, [], []⟩

/-- A matching oracle that always renders `(true, true, true)`. -/
def MO0 : MatchOracle := fun _ _ _ => (true, true, true)

/-- A repository whose `Get` always errors. -/
def RepoFail : PolicyRepository := ⟨(none, some "boom"), fun _ => some "boom"⟩

/-- An enforcer over `RepoFail` with one registered, disabled plugin and
one registered, enabled plugin. -/
def EFail : Enforcer :=
  ⟨RepoFail, [], [("fw", ⟨⟨"fw"⟩, false⟩), ("mesh", ⟨⟨"mesh"⟩, true⟩)]⟩

/-- A policy carrying one content for plugin "fw" and one for plugin
"mesh". -/
def P1 : Policy := ⟨"u1", "policy one", some [⟨"fw", [1, 2]⟩, ⟨"mesh", [3]⟩]⟩

/-- A policy with a nil content list. -/
def P2 : Policy := ⟨"u2", "policy two", none⟩

/-- A bundle holding `P1` and `P2`. -/
def B1 : PolicyBundle := ⟨"b1", 2, [P1, P2]⟩

/-- A repository that returns `B1` and saves successfully. -/
def Repo1 : PolicyRepository := ⟨(some B1, none), fun _ => none⟩

/-- An enforcer over `Repo1` with one registered, disabled "fw"
plugin. -/
def E1 : Enforcer := ⟨Repo1, [], [("fw", ⟨⟨"fw"⟩, false⟩)]⟩

/-- The "fw" plugin. -/
def PFw : Plugin := ⟨"fw"⟩

/-- The "mesh" plugin. -/
def PMesh : Plugin := ⟨"mesh"⟩

/-- An enforcer over `Repo1` with two registered handlers and no
plugins. -/
def E3 : Enforcer := ⟨Repo1, ["h1", "h2"], []⟩

/-- An enforcer over the always-failing repository with no plugins. -/
def E4 : Enforcer := ⟨RepoFail, [], []⟩

/-- A bundle with a single policy carrying two contents addressed to the
same plugin "fw". -/
def B2 : PolicyBundle :=
  ⟨"b2", 3, [⟨"u1", "two contents", some [⟨"fw", [1]⟩, ⟨"fw", [2]⟩]⟩]⟩

/-- An enforcer whose repository returns `B2`, with no handlers and no
plugins. -/
def E2 : Enforcer := ⟨⟨(some B2, none), fun _ => none⟩, [], []⟩

/-! Helper lemmas shared by the claim theorems. -/

/-- When the repository's `Get` reports an error, `Fetch` returns no
bundle. -/
theorem Enforcer.fetch_eq_none_of_get_error (e : Enforcer)
    (h : (e.Store.get).2.isSome = true) : e.Fetch = none := by
  unfold Enforcer.Fetch
  rcases hg : e.Store.get with ⟨b, err⟩
  cases err with
  | none => rw [hg] at h; simp at h
  | some msg => rfl

/-- Looking up a key in the registry after `setEnabled` yields the same
entry with the flag overwritten. -/
theorem lookup_map_setEnabled (l : List (String × loadedPlugin))
    (pluginID : String) (v : Bool) :
    (l.map (fun kv =>
      if kv.1 == pluginID then (kv.1, { kv.2 with enabled := v }) else kv)).lookup pluginID
    = (l.lookup pluginID).map (fun lp => { lp with enabled := v }) := by
  induction l with
  | nil => rfl
  | cons kv rest ih =>
    rcases kv with ⟨k, lp⟩
    by_cases h : k = pluginID
    · subst h
      simp [List.lookup_cons]
    · have hpk : (pluginID == k) = false := beq_eq_false_iff_ne.mpr (Ne.symm h)
      rw [List.map_cons, if_neg (by simp [h])]
      simp only [List.lookup_cons, hpk]
      exact ih

/-- Looking up the enabled flag through `Enforcer.setEnabled`. -/
theorem Enforcer.lookup_setEnabled (e : Enforcer) (pluginID : String) (v : Bool) :
    (e.setEnabled pluginID v).RegisteredPlugins.lookup pluginID
    = (e.RegisteredPlugins.lookup pluginID).map (fun lp => { lp with enabled := v }) :=
  lookup_map_setEnabled e.RegisteredPlugins pluginID v

/-- Appending a binding for a fresh key makes it visible to lookup. -/
theorem lookup_append_fresh (l : List (String × loadedPlugin))
    (k : String) (v : loadedPlugin) (h : l.lookup k = none) :
    (l ++ [(k, v)]).lookup k = some v := by
  rw [List.lookup_append, h]
  simp

/-- Deleting a key makes it invisible to lookup. -/
theorem lookup_filter_out (l : List (String × loadedPlugin)) (k : String) :
    (l.filter (fun kv => !(kv.1 == k))).lookup k = none := by
  rw [List.lookup_eq_none_iff]
  intro p hp
  have hcond := List.of_mem_filter hp
  simp only [Bool.not_eq_true'] at hcond
  have hne := beq_eq_false_iff_ne.mp hcond
  simp [bne_iff_ne, Ne.symm hne]

/-- Deleting an absent key leaves the registry unchanged. -/
theorem filter_out_absent (l : List (String × loadedPlugin)) (k : String)
    (h : l.lookup k = none) :
    l.filter (fun kv => !(kv.1 == k)) = l := by
  rw [List.filter_eq_self]
  intro kv hkv
  have hne := List.lookup_eq_none_iff.mp h kv hkv
  simp only [bne_iff_ne] at hne
  simp [beq_eq_false_iff_ne.mpr (Ne.symm hne)]

/-- Case equation: `Enable` on an unregistered id. -/
theorem Enforcer.enable_not_registered (e : Enforcer) (pluginID : String)
    (h : e.RegisteredPlugins.lookup pluginID = none) :
    e.Enable pluginID = ⟨e, false, []⟩ := by
  unfold Enforcer.Enable
  rw [h]

/-- Case equation: `Enable` on an already enabled plugin. -/
theorem Enforcer.enable_already_enabled (e : Enforcer) (pluginID : String)
    (lp : loadedPlugin) (hlp : e.RegisteredPlugins.lookup pluginID = some lp)
    (hen : lp.enabled = true) :
    e.Enable pluginID = ⟨e, false, []⟩ := by
  unfold Enforcer.Enable
  rw [hlp]
  simp [hen]

/-- Case equation: `Enable` when the bundle fetch fails. -/
theorem Enforcer.enable_fetch_failed (e : Enforcer) (pluginID : String)
    (lp : loadedPlugin) (hlp : e.RegisteredPlugins.lookup pluginID = some lp)
    (hen : lp.enabled = false) (hf : e.Fetch = none) :
    e.Enable pluginID = ⟨e, false, []⟩ := by
  unfold Enforcer.Enable
  rw [hlp]
  simp [hen, hf]

/-- Case equation: `Enable` on a registered, disabled plugin with a
successful fetch. -/
theorem Enforcer.enable_success (e : Enforcer) (pluginID : String)
    (lp : loadedPlugin) (bundle : PolicyBundle)
    (hlp : e.RegisteredPlugins.lookup pluginID = some lp)
    (hen : lp.enabled = false) (hf : e.Fetch = some bundle) :
    e.Enable pluginID =
      ⟨e.setEnabled pluginID true, true, applyCallsFor lp.plugin bundle⟩ := by
  unfold Enforcer.Enable
  rw [hlp]
  simp [hen, hf]

/-- Case equation: `Disable` on an unregistered id. -/
theorem Enforcer.disable_not_registered (e : Enforcer) (pluginID : String)
    (h : e.RegisteredPlugins.lookup pluginID = none) :
    e.Disable pluginID = ⟨e, false, []⟩ := by
  unfold Enforcer.Disable
  rw [h]

/-- Case equation: `Disable` on an already disabled plugin. -/
theorem Enforcer.disable_already_disabled (e : Enforcer) (pluginID : String)
    (lp : loadedPlugin) (hlp : e.RegisteredPlugins.lookup pluginID = some lp)
    (hen : lp.enabled = false) :
    e.Disable pluginID = ⟨e, false, []⟩ := by
  unfold Enforcer.Disable
  rw [hlp]
  simp [hen]

/-- Case equation: `Disable` when the bundle fetch fails. -/
theorem Enforcer.disable_fetch_failed (e : Enforcer) (pluginID : String)
    (lp : loadedPlugin) (hlp : e.RegisteredPlugins.lookup pluginID = some lp)
    (hen : lp.enabled = true) (hf : e.Fetch = none) :
    e.Disable pluginID = ⟨e, false, []⟩ := by
  unfold Enforcer.Disable
  rw [hlp]
  simp [hen, hf]

/-- Case equation: `Disable` on a registered, enabled plugin with a
successful fetch. -/
theorem Enforcer.disable_success (e : Enforcer) (pluginID : String)
    (lp : loadedPlugin) (bundle : PolicyBundle)
    (hlp : e.RegisteredPlugins.lookup pluginID = some lp)
    (hen : lp.enabled = true) (hf : e.Fetch = some bundle) :
    e.Disable pluginID =
      ⟨e.setEnabled pluginID false, true, removeCallsFor lp.plugin bundle⟩ := by
  unfold Enforcer.Disable
  rw [hlp]
  simp [hen, hf]

/-- Disabling never adds or removes a registry entry. -/
theorem Enforcer.disable_preserves_presence (e : Enforcer) (pluginID : String) :
    ((e.Disable pluginID).enforcer.RegisteredPlugins.lookup pluginID).isSome
      = (e.RegisteredPlugins.lookup pluginID).isSome := by
  cases hl : e.RegisteredPlugins.lookup pluginID with
  | none => rw [e.disable_not_registered pluginID hl]; simp [hl]
  | some lp =>
    cases hen : lp.enabled with
    | false => rw [e.disable_already_disabled pluginID lp hl hen]; simp [hl]
    | true =>
      cases hf : e.Fetch with
      | none => rw [e.disable_fetch_failed pluginID lp hl hen hf]; simp [hl]
      | some bundle =>
        rw [e.disable_success pluginID lp bundle hl hen hf]
        simp [Enforcer.lookup_setEnabled, hl]

/-- Case equation: `RegisterPlugin` on a fresh id inserts the disabled
entry and delegates to `Enable`, returning `true` unconditionally. -/
theorem Enforcer.register_fresh (e : Enforcer) (p : Plugin)
    (hl : e.RegisteredPlugins.lookup p.ID = none) :
    e.RegisterPlugin p =
      ⟨((e.insertPlugin p).Enable p.ID).enforcer, true,
        ((e.insertPlugin p).Enable p.ID).calls⟩ := by
  unfold Enforcer.RegisterPlugin
  rw [hl]
  rfl

/-- The fresh entry inserted by `RegisterPlugin` is found by lookup. -/
theorem Enforcer.lookup_insertPlugin (e : Enforcer) (p : Plugin)
    (hl : e.RegisteredPlugins.lookup p.ID = none) :
    (e.insertPlugin p).RegisteredPlugins.lookup p.ID = some ⟨p, false⟩ :=
  lookup_append_fresh _ _ _ hl

/-- Two filterMaps guarded by the same predicate keep the same number of
elements whatever they map the survivors to. -/
theorem length_filterMap_ite {α β γ : Type} (l : List α) (g : α → Bool)
    (f₁ : α → β) (f₂ : α → γ) :
    (l.filterMap (fun c => if g c then some (f₁ c) else none)).length
    = (l.filterMap (fun c => if g c then some (f₂ c) else none)).length := by
  induction l with
  | nil => rfl
  | cons a rest ih =>
    by_cases h : g a <;> simp [List.filterMap_cons, h, ih]

/-- The `Disable` loop issues exactly as many `Remove` calls as the
`Enable` loop issues `Apply` calls. -/
theorem remove_apply_length_eq (p : Plugin) (bundle : PolicyBundle) :
    (removeCallsFor p bundle).length = (applyCallsFor p bundle).length := by
  unfold removeCallsFor applyCallsFor
  generalize (bundle.Filter (pluginFilter p)) = ps
  induction ps with
  | nil => rfl
  | cons pol rest ih =>
    simp only [List.flatMap_cons, List.length_append, ih]
    congr 1
    exact length_filterMap_ite _ _ _ _

/-- A handler id that is not registered receives nothing from a
`notify`-style map over the registry. -/
theorem filter_map_handlerID_not_mem (hs : List String) (h : String)
    (f : String → HandlerCall) (hf : ∀ id, (f id).handlerID = id)
    (hmem : h ∉ hs) :
    (hs.map f).filter (fun c => c.handlerID == h) = [] := by
  induction hs with
  | nil => rfl
  | cons a rest ih =>
    simp only [List.mem_cons, not_or] at hmem
    have hne : a ≠ h := fun hh => hmem.1 hh.symm
    simp [List.filter_cons, hf a, beq_eq_false_iff_ne.mpr hne, ih hmem.2]

/-- A handler id registered exactly once receives exactly its own
invocation from a `notify`-style map over the registry. -/
theorem filter_map_handlerID_count_one (hs : List String) (h : String)
    (f : String → HandlerCall) (hf : ∀ id, (f id).handlerID = id)
    (hc : hs.count h = 1) :
    (hs.map f).filter (fun c => c.handlerID == h) = [f h] := by
  induction hs with
  | nil => simp at hc
  | cons a rest ih =>
    by_cases hah : a = h
    · subst hah
      have hrest : rest.count a = 0 := by
        rw [List.count_cons] at hc
        simp at hc
        omega
      have hnot : a ∉ rest := List.count_eq_zero.mp hrest
      simp [List.filter_cons, hf a,
        filter_map_handlerID_not_mem rest a f hf hnot]
    · have hc' : rest.count h = 1 := by
        rw [List.count_cons] at hc
        simpa [hah, Ne.symm hah] using hc
      simp [List.filter_cons, hf a, beq_eq_false_iff_ne.mpr hah, ih hc']

/-! Claim theorems. -/

/-- C1: for every bundle returned by a successful fetch and every
assembled resource, `Answer` returns exactly
`valid && (!accept || allow)` from the triple the bundle's `Match`
produces for that resource at the current time; in particular a
`valid = false` triple makes `Answer` return `false`. -/
theorem answer_is_match_composition (e : Enforcer) (matchO : MatchOracle)
    (now : Nat) (properties : List Rule) (credential : Option Credential)
    (bundle : PolicyBundle) (resource : Resource)
    (hf : e.Fetch = some bundle)
    (ha : assemble properties credential = Except.ok resource) :
    e.Answer matchO now properties credential =
      ((matchO bundle resource now).1 &&
        (!(matchO bundle resource now).2.1 || (matchO bundle resource now).2.2))
    ∧ ((matchO bundle resource now).1 = false →
        e.Answer matchO now properties credential = false) := by
  have hmain : e.Answer matchO now properties credential =
      ((matchO bundle resource now).1 &&
        (!(matchO bundle resource now).2.1 || (matchO bundle resource now).2.2)) := by
    unfold Enforcer.Answer
    rw [hf, ha]
  refine ⟨hmain, fun hv => ?_⟩
  rw [hmain, hv]
  simp

/-- Witness for C1 at the concrete enforcer `E0`, bundle `B0`, oracle
`MO0` and property list `[Rule0]`. -/
theorem answer_is_match_composition_witness :
    E0.Answer MO0 0 [Rule0] none = true := by
  have h := (answer_is_match_composition E0 MO0 0 [Rule0] none B0 Res0 rfl rfl).1
  simpa using h

/-- C2: for every credential and every repository state, `Answer` called
with an empty property list returns `false`. -/
theorem answer_empty_properties_false (e : Enforcer) (matchO : MatchOracle)
    (now : Nat) (credential : Option Credential) :
    e.Answer matchO now [] credential = false := by
  unfold Enforcer.Answer
  cases e.Fetch with
  | none => rfl
  | some bundle => rfl

/-- C3: if the repository's `Get` always errors, `Fetch` returns no
bundle and `Enable`, `Disable` and `Answer` all return `false`, for
every plugin id and every request. -/
theorem get_error_fail_closed (e : Enforcer)
    (h : (e.Store.get).2.isSome = true) :
    e.Fetch = none
    ∧ (∀ pluginID : String, (e.Enable pluginID).ok = false)
    ∧ (∀ pluginID : String, (e.Disable pluginID).ok = false)
    ∧ (∀ (matchO : MatchOracle) (now : Nat) (properties : List Rule)
        (credential : Option Credential),
        e.Answer matchO now properties credential = false) := by
  have hf : e.Fetch = none := e.fetch_eq_none_of_get_error h
  refine ⟨hf, fun pluginID => ?_, fun pluginID => ?_, fun matchO now properties credential => ?_⟩
  · unfold Enforcer.Enable
    cases e.RegisteredPlugins.lookup pluginID with
    | none => rfl
    | some lp =>
      cases hlp : lp.enabled with
      | true => simp [hlp]
      | false => simp [hlp, hf]
  · unfold Enforcer.Disable
    cases e.RegisteredPlugins.lookup pluginID with
    | none => rfl
    | some lp =>
      cases hlp : lp.enabled with
      | false => simp [hlp]
      | true => simp [hlp, hf]
  · unfold Enforcer.Answer
    rw [hf]

/-- Witness for C3 at the concrete enforcer `EFail`, whose repository
always errors, exercised on a disabled and an enabled registered
plugin and a non-empty request. -/
theorem get_error_fail_closed_witness :
    EFail.Fetch = none
    ∧ (EFail.Enable "fw").ok = false
    ∧ (EFail.Enable "mesh").ok = false
    ∧ (EFail.Disable "mesh").ok = false
    ∧ EFail.Answer MO0 0 [Rule0] none = false := by
  have h := get_error_fail_closed EFail rfl
  exact ⟨h.1, h.2.1 "fw", h.2.1 "mesh", h.2.2.1 "mesh", h.2.2.2 MO0 0 [Rule0] none⟩

/-- C9: `Apply` dereferences its bundle argument unconditionally, so a
nil bundle panics (modelled as `none`), while any non-nil bundle yields
a result on both the success and failure paths. -/
theorem apply_nil_bundle_panics (e : Enforcer) :
    e.Apply none = none
    ∧ ∀ bundle : PolicyBundle, (e.Apply (some bundle)).isSome = true := by
  refine ⟨rfl, fun bundle => ?_⟩
  cases h : e.Store.save bundle <;> simp [Enforcer.Apply, h]

/-- C5: `Enable(id)` returns `false` when the id is unregistered, when
the plugin is already enabled, or when the bundle fetch fails (the
plugin then remains disabled, the enforcer being unchanged); on success
it invokes `plugin.Apply(policy.UUID, content.Blob)` for each
`PolicyContent` with the plugin's id in each policy selected by the
plugin filter, then sets `enabled` and returns `true` (the plugin's
`Apply` results are never consulted). -/
theorem enable_characterization (e : Enforcer) (pluginID : String) :
    (e.RegisteredPlugins.lookup pluginID = none →
      e.Enable pluginID = ⟨e, false, []⟩)
    ∧ (∀ lp : loadedPlugin, e.RegisteredPlugins.lookup pluginID = some lp →
        (lp.enabled = true → e.Enable pluginID = ⟨e, false, []⟩)
        ∧ (lp.enabled = false → e.Fetch = none →
            e.Enable pluginID = ⟨e, false, []⟩)
        ∧ (∀ bundle : PolicyBundle, lp.enabled = false → e.Fetch = some bundle →
            e.Enable pluginID =
              ⟨e.setEnabled pluginID true, true, applyCallsFor lp.plugin bundle⟩)) :=
  ⟨fun h => e.enable_not_registered pluginID h,
   fun lp hlp =>
    ⟨fun hen => e.enable_already_enabled pluginID lp hlp hen,
     fun hen hf => e.enable_fetch_failed pluginID lp hlp hen hf,
     fun bundle hen hf => e.enable_success pluginID lp bundle hlp hen hf⟩⟩

/-- Witness for C5 at the concrete enforcer `E1`: enabling the
registered, disabled "fw" plugin against bundle `B1` succeeds and pushes
exactly the "fw"-addressed content of `P1`. -/
theorem enable_characterization_witness :
    (E1.Enable "fw").ok = true
    ∧ (E1.Enable "fw").calls = [PluginCall.apply "u1" [1, 2]] := by
  have h := ((enable_characterization E1 "fw").2 ⟨⟨"fw"⟩, false⟩ rfl).2.2 B1 rfl rfl
  rw [h]
  exact ⟨rfl, rfl⟩

/-- C10: whenever `Enable` or `Disable` returns `false`, no plugin call
is made and the enforcer (hence every enabled flag) is unchanged; in
particular `Disable` on a registered enabled plugin whose bundle fetch
fails leaves the plugin enabled with no `Remove` issued. -/
theorem lifecycle_failure_no_state_change (e : Enforcer) (pluginID : String) :
    ((e.Enable pluginID).ok = false → e.Enable pluginID = ⟨e, false, []⟩)
    ∧ ((e.Disable pluginID).ok = false → e.Disable pluginID = ⟨e, false, []⟩)
    ∧ (∀ lp : loadedPlugin, e.RegisteredPlugins.lookup pluginID = some lp →
        lp.enabled = true → e.Fetch = none →
        (e.Disable pluginID).ok = false
        ∧ (e.Disable pluginID).enforcer.RegisteredPlugins.lookup pluginID = some lp
        ∧ (e.Disable pluginID).calls = []) := by
  refine ⟨?_, ?_, ?_⟩
  · cases hl : e.RegisteredPlugins.lookup pluginID with
    | none => exact fun _ => e.enable_not_registered pluginID hl
    | some lp =>
      cases hen : lp.enabled with
      | true => exact fun _ => e.enable_already_enabled pluginID lp hl hen
      | false =>
        cases hf : e.Fetch with
        | none => exact fun _ => e.enable_fetch_failed pluginID lp hl hen hf
        | some bundle =>
          intro hok
          rw [e.enable_success pluginID lp bundle hl hen hf] at hok
          simp at hok
  · cases hl : e.RegisteredPlugins.lookup pluginID with
    | none => exact fun _ => e.disable_not_registered pluginID hl
    | some lp =>
      cases hen : lp.enabled with
      | false => exact fun _ => e.disable_already_disabled pluginID lp hl hen
      | true =>
        cases hf : e.Fetch with
        | none => exact fun _ => e.disable_fetch_failed pluginID lp hl hen hf
        | some bundle =>
          intro hok
          rw [e.disable_success pluginID lp bundle hl hen hf] at hok
          simp at hok
  · intro lp hlp hen hf
    rw [e.disable_fetch_failed pluginID lp hlp hen hf]
    exact ⟨rfl, hlp, rfl⟩

/-- Witness for C10 at the concrete enforcer `EFail`: disabling the
registered, enabled "mesh" plugin fails because the repository errors,
leaving the plugin enabled and issuing no call. -/
theorem lifecycle_failure_no_state_change_witness :
    (EFail.Disable "mesh").ok = false
    ∧ (EFail.Disable "mesh").enforcer.RegisteredPlugins.lookup "mesh"
        = some ⟨⟨"mesh"⟩, true⟩
    ∧ (EFail.Disable "mesh").calls = [] := by
  have h := (lifecycle_failure_no_state_change EFail "mesh").2.2
    ⟨⟨"mesh"⟩, true⟩ rfl rfl rfl
  exact h

/-- C8: `UnregisterPlugin` first attempts `Disable` (its plugin calls
are the only side effects), removes the registry entry regardless of the
`Disable` outcome, and returns whether the plugin was registered; on a
never-registered plugin it returns `false` and changes nothing. -/
theorem unregister_plugin_characterization (e : Enforcer) (p : Plugin) :
    (e.UnregisterPlugin p).ok = (e.RegisteredPlugins.lookup p.ID).isSome
    ∧ (e.UnregisterPlugin p).enforcer.RegisteredPlugins.lookup p.ID = none
    ∧ (e.UnregisterPlugin p).calls = (e.Disable p.ID).calls
    ∧ (e.RegisteredPlugins.lookup p.ID = none →
        e.UnregisterPlugin p = ⟨e, false, []⟩) := by
  refine ⟨?_, ?_, rfl, ?_⟩
  · show ((e.Disable p.ID).enforcer.RegisteredPlugins.lookup p.ID).isSome = _
    exact e.disable_preserves_presence p.ID
  · exact lookup_filter_out _ p.ID
  · intro hl
    unfold Enforcer.UnregisterPlugin
    rw [e.disable_not_registered p.ID hl]
    dsimp only
    rw [filter_out_absent _ _ hl, hl]
    rfl

/-- Witness for C8: unregistering the never-registered "mesh" plugin
from the concrete enforcer `E1` returns `false` with no effect, while
unregistering the registered "fw" plugin reports it present and removes
it. -/
theorem unregister_plugin_characterization_witness :
    E1.UnregisterPlugin PMesh = ⟨E1, false, []⟩
    ∧ (E1.UnregisterPlugin PFw).ok = true
    ∧ (E1.UnregisterPlugin PFw).enforcer.RegisteredPlugins.lookup "fw" = none := by
  refine ⟨(unregister_plugin_characterization E1 PMesh).2.2.2 rfl, ?_, ?_⟩
  · rw [(unregister_plugin_characterization E1 PFw).1]
    rfl
  · exact (unregister_plugin_characterization E1 PFw).2.1

/-- C4 counterexample: against a repository whose `Get` always errors,
`RegisterPlugin` on a fresh plugin still returns `true`, yet the plugin
ends registered in the `enabled = false` state with nothing pushed,
refuting "returns true and the plugin ends enabled with every applicable
policy pushed, for every repository state". -/
theorem register_plugin_fetch_failure_counterexample :
    (E4.RegisterPlugin PFw).ok = true
    ∧ (E4.RegisterPlugin PFw).enforcer.RegisteredPlugins.lookup "fw"
        = some ⟨PFw, false⟩
    ∧ (E4.RegisterPlugin PFw).calls = [] := by
  refine ⟨rfl, rfl, rfl⟩

/-- C4 (amended): `RegisterPlugin(p)` returns `false` and changes no
state when `p.ID()` is already registered; otherwise it returns `true`
unconditionally, and when the bundle fetch succeeds the plugin ends
enabled with every applicable policy content pushed to it, while a
failing fetch leaves it registered but disabled with nothing pushed. -/
theorem register_plugin_characterization (e : Enforcer) (p : Plugin) :
    ((e.RegisteredPlugins.lookup p.ID).isSome = true →
        e.RegisterPlugin p = ⟨e, false, []⟩)
    ∧ (e.RegisteredPlugins.lookup p.ID = none →
        (e.RegisterPlugin p).ok = true
        ∧ (∀ bundle : PolicyBundle, e.Fetch = some bundle →
            (e.RegisterPlugin p).enforcer.RegisteredPlugins.lookup p.ID
                = some ⟨p, true⟩
            ∧ (e.RegisterPlugin p).calls = applyCallsFor p bundle)
        ∧ (e.Fetch = none →
            (e.RegisterPlugin p).enforcer.RegisteredPlugins.lookup p.ID
                = some ⟨p, false⟩
            ∧ (e.RegisterPlugin p).calls = [])) := by
  constructor
  · intro h
    obtain ⟨lp, hl⟩ := Option.isSome_iff_exists.mp h
    unfold Enforcer.RegisterPlugin
    rw [hl]
  · intro hl
    have hl1 := e.lookup_insertPlugin p hl
    refine ⟨by rw [e.register_fresh p hl], ?_, ?_⟩
    · intro bundle hf
      have hf1 : (e.insertPlugin p).Fetch = some bundle := hf
      have hen := Enforcer.enable_success (e.insertPlugin p) p.ID
        ⟨p, false⟩ bundle hl1 rfl hf1
      rw [e.register_fresh p hl, hen]
      refine ⟨?_, rfl⟩
      show ((e.insertPlugin p).setEnabled p.ID true).RegisteredPlugins.lookup p.ID
        = some ⟨p, true⟩
      rw [Enforcer.lookup_setEnabled, hl1]
      rfl
    · intro hf
      have hf1 : (e.insertPlugin p).Fetch = none := hf
      have hen := Enforcer.enable_fetch_failed (e.insertPlugin p) p.ID
        ⟨p, false⟩ hl1 rfl hf1
      rw [e.register_fresh p hl, hen]
      exact ⟨hl1, rfl⟩

/-- Witness for C4 (amended) at the concrete enforcer `E1`: registering
the fresh "mesh" plugin against bundle `B1` succeeds, ends enabled, and
pushes exactly the "mesh"-addressed content of `P1`. -/
theorem register_plugin_characterization_witness :
    (E1.RegisterPlugin PMesh).ok = true
    ∧ (E1.RegisterPlugin PMesh).enforcer.RegisteredPlugins.lookup "mesh"
        = some ⟨PMesh, true⟩
    ∧ (E1.RegisterPlugin PMesh).calls = [PluginCall.apply "u1" [3]] := by
  have h := ((register_plugin_characterization E1 PMesh).2 rfl)
  have h2 := h.2.1 B1 rfl
  refine ⟨h.1, h2.1, ?_⟩
  rw [h2.2]
  rfl

/-- C6 counterexample: in bundle `B2` exactly one policy scopes to the
"fw" plugin, yet registering "fw" issues two `Apply` calls (one per
matching `PolicyContent`), refuting "K policies scoping to the plugin
imply exactly K Apply calls". -/
theorem enable_disable_symmetry_counterexample :
    (B2.Filter (pluginFilter PFw)).length = 1
    ∧ (E2.RegisterPlugin PFw).calls
        = [PluginCall.apply "u1" [1], PluginCall.apply "u1" [2]] := by
  refine ⟨rfl, rfl⟩

/-- C6 (amended): for a plugin with K matching (policy, content) pairs
in the applied bundle — one `Apply` per `PolicyContent` addressed to the
plugin in each policy scoping to it — registration issues exactly those
K `Apply` calls, a subsequent `Disable` exactly K `Remove` calls, and a
subsequent `Enable` the same K `Apply` calls again, with no
deduplication across cycles; K equals the number of scoping policies
whenever each carries exactly one matching content. -/
theorem enable_disable_symmetry (e : Enforcer) (p : Plugin)
    (bundle : PolicyBundle)
    (hl : e.RegisteredPlugins.lookup p.ID = none)
    (hf : e.Fetch = some bundle) :
    (e.RegisterPlugin p).calls = applyCallsFor p bundle
    ∧ ((e.RegisterPlugin p).enforcer.Disable p.ID).calls
        = removeCallsFor p bundle
    ∧ (removeCallsFor p bundle).length = (applyCallsFor p bundle).length
    ∧ (((e.RegisterPlugin p).enforcer.Disable p.ID).enforcer.Enable p.ID).calls
        = applyCallsFor p bundle := by
  have hl1 := e.lookup_insertPlugin p hl
  have hf1 : (e.insertPlugin p).Fetch = some bundle := hf
  have hen1 := Enforcer.enable_success (e.insertPlugin p) p.ID
    ⟨p, false⟩ bundle hl1 rfl hf1
  have hreg := e.register_fresh p hl
  have hE1 : (e.RegisterPlugin p).enforcer
      = (e.insertPlugin p).setEnabled p.ID true := by
    rw [hreg, hen1]
  have hl2 : ((e.insertPlugin p).setEnabled p.ID true).RegisteredPlugins.lookup p.ID
      = some ⟨p, true⟩ := by
    rw [Enforcer.lookup_setEnabled, hl1]
    rfl
  have hf2 : ((e.insertPlugin p).setEnabled p.ID true).Fetch = some bundle := hf
  have hdis := Enforcer.disable_success
    ((e.insertPlugin p).setEnabled p.ID true) p.ID ⟨p, true⟩ bundle hl2 rfl hf2
  have hl3 : (((e.insertPlugin p).setEnabled p.ID true).setEnabled p.ID
        false).RegisteredPlugins.lookup p.ID = some ⟨p, false⟩ := by
    rw [Enforcer.lookup_setEnabled, hl2]
    rfl
  have hf3 : (((e.insertPlugin p).setEnabled p.ID true).setEnabled p.ID
        false).Fetch = some bundle := hf
  have hen3 := Enforcer.enable_success
    (((e.insertPlugin p).setEnabled p.ID true).setEnabled p.ID false) p.ID
    ⟨p, false⟩ bundle hl3 rfl hf3
  refine ⟨by rw [hreg, hen1], ?_, remove_apply_length_eq p bundle, ?_⟩
  · rw [hE1, hdis]
  · rw [hE1, hdis]
    show ((((e.insertPlugin p).setEnabled p.ID true).setEnabled p.ID
      false).Enable p.ID).calls = _
    rw [hen3]

/-- Witness for C6 (amended) at the concrete enforcer `E1`: the "mesh"
plugin has exactly one matching content in `B1`; registration pushes it,
disabling removes it, re-enabling pushes it again. -/
theorem enable_disable_symmetry_witness :
    (E1.RegisterPlugin PMesh).calls = [PluginCall.apply "u1" [3]]
    ∧ ((E1.RegisterPlugin PMesh).enforcer.Disable PMesh.ID).calls
        = [PluginCall.remove "u1"]
    ∧ (((E1.RegisterPlugin PMesh).enforcer.Disable PMesh.ID).enforcer.Enable
        PMesh.ID).calls = [PluginCall.apply "u1" [3]] := by
  have h := enable_disable_symmetry E1 PMesh B1 rfl rfl
  refine ⟨by rw [h.1]; rfl, by rw [h.2.1]; rfl, by rw [h.2.2.2]; rfl⟩

/-- C7: every `Apply` — whether the save succeeds or fails — triggers
exactly one `Handle` invocation on each registered handler, carrying
`PolicyApply` on success or `PolicyApplyError` with the error text as
details on failure; `Apply` returns whether the save succeeded; and
across N applies a handler registered exactly once receives exactly N
events in call order. -/
theorem apply_notifies_each_handler (e : Enforcer) (h : String)
    (hc : e.Handlers.count h = 1) :
    (∀ b : PolicyBundle,
        (e.Apply (some b)).map Prod.fst = some (e.Store.save b).isNone)
    ∧ (∀ b : PolicyBundle, ∃ trace : List HandlerCall,
        e.Apply (some b) = some ((e.Store.save b).isNone, trace)
        ∧ trace.length = e.Handlers.length
        ∧ trace.filter (fun c => c.handlerID == h) = [expectedHandlerCall e h b])
    ∧ (∀ bundles : List PolicyBundle,
        (e.applySeq bundles).filter (fun c => c.handlerID == h)
          = bundles.map (fun b => expectedHandlerCall e h b)) := by
  have hret : ∀ b : PolicyBundle,
      (e.Apply (some b)).map Prod.fst = some (e.Store.save b).isNone := by
    intro b
    cases hs : e.Store.save b <;> simp [Enforcer.Apply, hs]
  have htrace : ∀ b : PolicyBundle, ∃ trace : List HandlerCall,
      e.Apply (some b) = some ((e.Store.save b).isNone, trace)
      ∧ trace.length = e.Handlers.length
      ∧ trace.filter (fun c => c.handlerID == h) = [expectedHandlerCall e h b] := by
    intro b
    cases hs : e.Store.save b with
    | some msg =>
      refine ⟨e.notify PolicyEvent.PolicyApplyError msg b, ?_, ?_, ?_⟩
      · simp [Enforcer.Apply, hs]
      · simp [Enforcer.notify]
      · unfold Enforcer.notify
        rw [filter_map_handlerID_count_one e.Handlers h _ (fun id => rfl) hc]
        unfold expectedHandlerCall
        rw [hs]
    | none =>
      refine ⟨e.notify PolicyEvent.PolicyApply "policy applied" b, ?_, ?_, ?_⟩
      · simp [Enforcer.Apply, hs]
      · simp [Enforcer.notify]
      · unfold Enforcer.notify
        rw [filter_map_handlerID_count_one e.Handlers h _ (fun id => rfl) hc]
        unfold expectedHandlerCall
        rw [hs]
  refine ⟨hret, htrace, ?_⟩
  intro bundles
  induction bundles with
  | nil => rfl
  | cons b rest ih =>
    obtain ⟨tr, htr, _, hfil⟩ := htrace b
    show ((match e.Apply (some b) with
           | some (_, t) => t
           | none => []) ++ e.applySeq rest).filter
        (fun c => c.handlerID == h) = _
    rw [htr]
    dsimp only
    rw [List.filter_append, hfil, ih]
    rfl

/-- Witness for C7 at the concrete enforcer `E3` with handlers "h1" and
"h2": two successive applies of `B1` deliver exactly two `PolicyApply`
events to "h1", in call order. -/
theorem apply_notifies_each_handler_witness :
    (E3.applySeq [B1, B1]).filter (fun c => c.handlerID == "h1")
      = [⟨"h1", PolicyEvent.PolicyApply, 2, "b1", "policy applied"⟩,
         ⟨"h1", PolicyEvent.PolicyApply, 2, "b1", "policy applied"⟩] := by
  have h := (apply_notifies_each_handler E3 "h1" (by decide)).2.2 [B1, B1]
  rw [h]
  rfl

end Padme
